import Mathlib

/-!
Shallow embedding of the MTP responder core (`src/mtpdevice/mtp_device.py`):
the operation registry built by the `operation` decorator, the validation
wrapper, the transaction dispatcher `handle_transaction`, and the operation
handlers of `MtpDevice`.  Collaborator modules of the repository that are not
under `src/` (`mtp_proto`, `mtp_object`, `mtp_exception`, the storage backend)
are modelled from the spec's interface descriptions; each such definition is
marked in its doc comment.
-/

namespace Mtp

/-- Response codes raised/written by the core.  Modelled from the spec:
the fixed response-code enumeration lives in the missing `mtp_proto` module;
the numeric wire values play no role in the dispatch logic, only identity
and distinctness of the codes do, so they are embedded as an inductive. -/
inductive RCode where
  | OK
  | INVALID_CODE_FORMAT
  | PARAMETER_NOT_SUPPORTED
  | SESSION_NOT_OPEN
  | INVALID_DATASET
  | SESSION_ALREADY_OPEN
  | INVALID_STORAGE_ID
  | STORE_READ_ONLY
  | NO_VALID_OBJECT_INFO
  | INVALID_OBJECT_HANDLE
  | PARTIAL_DELETION
  | OBJECT_WRITE_PROTECTED
  | DEVICE_PROP_NOT_SUPPORTED
  | OPERATION_NOT_SUPPORTED
  deriving DecidableEq, Repr

/-- Container kinds of a transport container (`ContainerTypes` of the missing
`mtp_proto` module; modelled from the spec, which requires the kind
"Command" for operations declaring a parameter count). -/
inductive ContainerType where
  | Command
  | Data
  | Response
  | Event
  deriving DecidableEq, Repr

/- Operation codes (`OperationDataCodes` of the missing `mtp_proto` module).
Modelled from the spec: integers uniquely identifying protocol operations;
the values are the MTP standard ones, but only identity/distinctness matters
to the dispatch logic. -/
namespace OperationDataCodes

def GetDeviceInfo : Nat := 0x1001
def OpenSession : Nat := 0x1002
def CloseSession : Nat := 0x1003
def GetStorageIDs : Nat := 0x1004
def GetStorageInfo : Nat := 0x1005
def GetNumObjects : Nat := 0x1006
def GetObjectHandles : Nat := 0x1007
def GetObjectInfo : Nat := 0x1008
def GetObject : Nat := 0x1009
def GetThumb : Nat := 0x100A
def DeleteObject : Nat := 0x100B
def SendObjectInfo : Nat := 0x100C
def SendObject : Nat := 0x100D
def InitiateCapture : Nat := 0x100E
def FormatStore : Nat := 0x100F
def ResetDevice : Nat := 0x1010
def SelfTest : Nat := 0x1011
def SetObjectProtection : Nat := 0x1012
def PowerDown : Nat := 0x1013
def GetDevicePropDesc : Nat := 0x1014
def GetDevicePropValue : Nat := 0x1015

end OperationDataCodes

/-- An incoming command container: container kind, operation code and the
ordered parameter list (`Command` of the missing `mtp_proto` module,
modelled from the spec's Command data model). -/
structure Command where
  ctype : ContainerType
  code : Nat
  params : List Nat
  deriving DecidableEq

/-- `command.num_params()`: the number of parameters carried. -/
def Command.num_params (c : Command) : Nat := c.params.length

/-- `command.get_param(i)`.  Modelled from the spec: reading a parameter the
command does not carry is out of the spec's scope (the accessor lives in the
missing `mtp_proto` module); the model reads absent parameters as zero, and
no theorem relies on that default. -/
def Command.get_param (c : Command) (i : Nat) : Nat := c.params.getD i 0

/-- The initiator data phase accompanying a command (`ir_data`); its `data`
attribute is the raw payload. -/
structure IrData where
  data : List Nat
  deriving DecidableEq

/-- A mutable response record: result code plus appended output parameters.
Modelled from the spec: the Response container of the missing `mtp_proto`
module, code defaulting to success until overwritten. -/
structure Response where
  code : RCode
  params : List Nat
  deriving DecidableEq

/-- An object owned by a storage unit.  The identity (`uid`), parent link,
raw `data` and protection status are the attributes the core reads/writes;
`deleteErr` abstracts the object capability `delete(format_code)` of the
missing `mtp_object` module for non-wildcard formats (`none` = the delete
succeeds, `some c` = it raises a protocol condition with response code `c`),
and `fmtMatches` abstracts `format_matches(format_code)`. -/
structure MtpObj where
  uid : Nat
  parentUid : Nat
  data : List Nat
  protection : Nat
  deleteErr : Nat → Option RCode
  fmtMatches : Nat → Bool

/-- `obj.delete(fmt)` outcome.  Modelled from the spec: force delete with the
wildcard format `0xffffffff` bypasses format filtering and always succeeds;
otherwise the object's own delete behavior decides. -/
def objDelete (o : MtpObj) (fmt : Nat) : Option RCode :=
  if fmt = 0xffffffff then none else o.deleteErr fmt

/-- A storage unit: unique id, write capability and its objects in stable
enumeration order (the spec's storage capability interface). -/
structure MtpStorage where
  uid : Nat
  can_write : Bool
  objects : List MtpObj

/-- `store.get_object(handle)`: the first owned object with that handle, or
`none` (spec interface: `get_object(handle) -> Object|None`). -/
def MtpStorage.get_object (s : MtpStorage) (handle : Nat) : Option MtpObj :=
  s.objects.find? (fun o => o.uid == handle)

/-- The device state: storage units in insertion order, the optional session
id, the pending-object reference, registered property codes.  The source's
`last_obj` holds the pending object itself; since that object is aliased into
its store, the model tracks it by its unique handle.  `uid_counter` models
the fresh-handle allocator of the missing `mtp_object` module (spec: handles
are unique across all storage units). -/
structure MtpDevice where
  stores : List MtpStorage
  session_id : Option Nat
  last_obj : Option Nat
  props : List Nat
  uid_counter : Nat

/-- Outbound data-phase payloads, abstracted: the byte-level codecs are
out-of-scope collaborators, so a payload records which serialization the
handler returned. -/
inductive Payload where
  | deviceInfo
  | storageInfo (uid : Nat)
  | u32 (n : Nat)
  | u32array (ns : List Nat)
  | objInfo (uid : Nat)
  | objData (bytes : List Nat)
  | thumb (uid : Nat)
  | propDesc (code : Nat)
  | propValue (code : Nat)

/-- The outcome of running a (wrapped or raw) handler: the device after the
call, the protocol condition it raised (if any), the output parameters it
appended to the response, and the outbound payload it returned. -/
structure HandlerResult where
  dev : MtpDevice
  err : Option RCode
  out_params : List Nat
  payload : Option Payload

/-- A handler as the source has it: `(self, command, response, ir_data)`;
the response mutation is returned in the `HandlerResult`. -/
def RawHandler : Type := MtpDevice → Command → Option IrData → HandlerResult

/-- Result of a handler that raised a protocol condition. -/
def hrErr (d : MtpDevice) (c : RCode) : HandlerResult :=
  { dev := d, err := some c, out_params := [], payload := none }

/-- Result of a handler that completed without payload. -/
def hrOk (d : MtpDevice) : HandlerResult :=
  { dev := d, err := none, out_params := [], payload := none }

/-- Result of a handler returning an outbound payload. -/
def hrData (d : MtpDevice) (p : Payload) : HandlerResult :=
  { dev := d, err := none, out_params := [], payload := some p }

/-- `MtpDevice.get_storage`: the storage unit with the given id, else the
protocol condition INVALID_STORAGE_ID. -/
def MtpDevice.get_storage (d : MtpDevice) (storage_id : Nat) :
    Except RCode MtpStorage :=
  match d.stores.find? (fun s => s.uid == storage_id) with
  | some s => .ok s
  | none => .error RCode.INVALID_STORAGE_ID

/-- `MtpDevice.get_object`: search the storage units in order, return the
first object with the handle, else INVALID_OBJECT_HANDLE. -/
def MtpDevice.get_object (d : MtpDevice) (handle : Nat) :
    Except RCode MtpObj :=
  match d.stores.findSome? (fun s => s.get_object handle) with
  | some o => .ok o
  | none => .error RCode.INVALID_OBJECT_HANDLE

/-- `MtpDevice.get_property`: membership of the property code (the property
objects themselves are out-of-scope collaborators; only their codes matter
to the core's lookup). -/
def MtpDevice.get_property (d : MtpDevice) (prop_code : Nat) :
    Except RCode Nat :=
  if d.props.contains prop_code then .ok prop_code
  else .error RCode.DEVICE_PROP_NOT_SUPPORTED

/-- All current objects of all storage units, in store order (the double
loop of `delete_all_objects`). -/
def all_objects (d : MtpDevice) : List MtpObj :=
  (d.stores.map MtpStorage.objects).flatten

/-- Effect of a successful `obj.delete(0xffffffff)` on the device: the
object is removed from every storage unit (forced deletion with the
wildcard format always succeeds; spec: force delete bypasses the normal
format-based delete filtering). -/
def force_delete (d : MtpDevice) (handle : Nat) : MtpDevice :=
  { d with stores := d.stores.map (fun s =>
      { s with objects := s.objects.filter (fun o => o.uid != handle) }) }

/-- `MtpDevice.delete_all_objects(obj_fmt_code)`: attempt to delete every
object of every store; track a `deleted` flag (set on success, and also on a
failure whose code is PARTIAL_DELETION) and an `undeleted` flag (set on any
failure); raise OBJECT_WRITE_PROTECTED when both are set, PARTIAL_DELETION
when only `undeleted` is.  Objects whose delete succeeded are removed from
their stores. -/
def MtpDevice.delete_all_objects (d : MtpDevice) (obj_fmt_code : Nat) :
    MtpDevice × Option RCode :=
  let deleted := (all_objects d).any (fun o =>
    (objDelete o obj_fmt_code).isNone ||
      (objDelete o obj_fmt_code == some RCode.PARTIAL_DELETION))
  let undeleted := (all_objects d).any (fun o =>
    (objDelete o obj_fmt_code).isSome)
  let d' := { d with stores := d.stores.map (fun s =>
    { s with objects := s.objects.filter (fun o =>
        (objDelete o obj_fmt_code).isSome) }) }
  (d', if undeleted then
        (if deleted then some RCode.OBJECT_WRITE_PROTECTED
         else some RCode.PARTIAL_DELETION)
       else none)

/-- `get_handles_for_store_id(storage_id, obj_fmt_code)`: handles of the
objects matching the format filter, across all stores for the wildcard
storage id, else in the one resolved store. -/
def MtpDevice.get_handles_for_store_id (d : MtpDevice)
    (storage_id obj_fmt_code : Nat) : Except RCode (List Nat) :=
  if storage_id = 0xffffffff then
    .ok ((d.stores.map (fun s =>
      (s.objects.filter (fun o => o.fmtMatches obj_fmt_code)).map
        MtpObj.uid)).flatten)
  else
    match d.get_storage storage_id with
    | .error e => .error e
    | .ok s =>
      .ok ((s.objects.filter (fun o => o.fmtMatches obj_fmt_code)).map
        MtpObj.uid)

/-- Python truthiness of `self.session_id` (`if self.session_id:` in
`OpenSession`): `None` and `0` are falsy, every other id is truthy. -/
def session_truthy (d : MtpDevice) : Bool :=
  match d.session_id with
  | none => false
  | some n => n != 0

/-- `GetDeviceInfo` handler body: return the packed device descriptor. -/
def GetDeviceInfo_h : RawHandler := fun d _ _ =>
  hrData d Payload.deviceInfo

/-- `OpenSession` handler body: fail SESSION_ALREADY_OPEN when the current
session id is truthy, else record parameter 0 as the session id. -/
def OpenSession_h : RawHandler := fun d cmd _ =>
  if session_truthy d then hrErr d RCode.SESSION_ALREADY_OPEN
  else hrOk { d with session_id := some (cmd.get_param 0) }

/-- `CloseSession` handler body: clear the session id. -/
def CloseSession_h : RawHandler := fun d _ _ =>
  hrOk { d with session_id := none }

/-- `GetStorageIDs` handler body: array of all storage unit ids. -/
def GetStorageIDs_h : RawHandler := fun d _ _ =>
  hrData d (Payload.u32array (d.stores.map MtpStorage.uid))

/-- `GetStorageInfo` handler body: the resolved store's info blob. -/
def GetStorageInfo_h : RawHandler := fun d cmd _ =>
  match d.get_storage (cmd.get_param 0) with
  | .error e => hrErr d e
  | .ok s => hrData d (Payload.storageInfo s.uid)

/-- `GetNumObjects` handler body: count of matching handles. -/
def GetNumObjects_h : RawHandler := fun d cmd _ =>
  match d.get_handles_for_store_id (cmd.get_param 0) (cmd.get_param 1) with
  | .error e => hrErr d e
  | .ok hs => hrData d (Payload.u32 hs.length)

/-- `GetObjectHandles` handler body: array of matching handles. -/
def GetObjectHandles_h : RawHandler := fun d cmd _ =>
  match d.get_handles_for_store_id (cmd.get_param 0) (cmd.get_param 1) with
  | .error e => hrErr d e
  | .ok hs => hrData d (Payload.u32array hs)

/-- `GetObjectInfo` handler body: the resolved object's info blob. -/
def GetObjectInfo_h : RawHandler := fun d cmd _ =>
  match d.get_object (cmd.get_param 0) with
  | .error e => hrErr d e
  | .ok o => hrData d (Payload.objInfo o.uid)

/-- `GetObject` handler body: the resolved object's raw data. -/
def GetObject_h : RawHandler := fun d cmd _ =>
  match d.get_object (cmd.get_param 0) with
  | .error e => hrErr d e
  | .ok o => hrData d (Payload.objData o.data)

/-- `GetThumb` handler body: the resolved object's thumbnail. -/
def GetThumb_h : RawHandler := fun d cmd _ =>
  match d.get_object (cmd.get_param 0) with
  | .error e => hrErr d e
  | .ok o => hrData d (Payload.thumb o.uid)

/-- `DeleteObject` handler body: the wildcard handle `0xffffffff` deletes
all objects matching the format filter (parameter 1) via
`delete_all_objects`; any other handle resolves one object and
force-deletes it with the wildcard format. -/
def DeleteObject_h : RawHandler := fun d cmd _ =>
  let handle := cmd.get_param 0
  let obj_fmt_code := cmd.get_param 1
  if handle = 0xffffffff then
    let r := d.delete_all_objects obj_fmt_code
    { dev := r.1, err := r.2, out_params := [], payload := none }
  else
    match d.get_object handle with
    | .error e => hrErr d e
    | .ok o => hrOk (force_delete d o.uid)

/-- Resolution of `SendObjectInfo`'s parent parameter against the resolved
store: a zero handle means the store root, reported as parent uid
`0xffffffff`; a non-zero handle is looked up in the store.  The behavior on
a non-zero handle the store cannot resolve lives in the missing storage
module; modelled from the spec ("its handle looked up, else protocol fails
via the store's own lookup path") as the object-handle lookup failure. -/
def resolve_parent (store : MtpStorage) (parent_handle : Nat) :
    Except RCode Nat :=
  if parent_handle ≠ 0 then
    match store.get_object parent_handle with
    | some p => .ok p.uid
    | none => .error RCode.INVALID_OBJECT_HANDLE
  else .ok 0xffffffff

/-- The object `MtpObject(None, obj_info, [])` built by `SendObjectInfo`:
no data yet; its handle comes from the allocator.  Modelled from the spec:
the parse of the info blob (`MtpObjectInfo.from_buff`, missing
`mtp_object` module) yields the metadata; the core only reads the new
object's uid afterwards, so the metadata beyond identity is defaulted. -/
def fresh_obj (uid parent_uid : Nat) : MtpObj :=
  { uid := uid, parentUid := parent_uid, data := [], protection := 0,
    deleteErr := fun _ => none, fmtMatches := fun _ => true }

/-- `SendObjectInfo` handler body: storage id must be non-zero (truthy) and
resolvable; the parent is resolved before the write check; a non-writable
store fails STORE_READ_ONLY; on success the new object is attached to the
store, three output parameters (store uid, parent uid, new object uid) are
appended and the object is recorded as the pending object. -/
def SendObjectInfo_h : RawHandler := fun d cmd _ =>
  let storage_id := cmd.get_param 0
  let parent_handle := cmd.get_param 1
  if storage_id ≠ 0 then
    match d.get_storage storage_id with
    | .error e => hrErr d e
    | .ok store =>
      match resolve_parent store parent_handle with
      | .error e => hrErr d e
      | .ok parent_uid =>
        if store.can_write then
          let obj := fresh_obj d.uid_counter parent_uid
          let d' := { d with
            stores := d.stores.map (fun s =>
              if s.uid == store.uid then
                { s with objects := s.objects ++ [obj] }
              else s),
            last_obj := some obj.uid,
            uid_counter := d.uid_counter + 1 }
          { dev := d', err := none,
            out_params := [store.uid, parent_uid, obj.uid], payload := none }
        else hrErr d RCode.STORE_READ_ONLY
  else hrErr d RCode.INVALID_STORAGE_ID

/-- `obj.set_data(bytes, adhere_size=True)`.  Modelled from the spec: the
object capability stores the transferred payload (size adherence is
internal to the missing `mtp_object` module). -/
def set_data_obj (o : MtpObj) (bytes : List Nat) : MtpObj :=
  { o with data := bytes }

/-- Effect of `self.last_obj.set_data(...)` on the device: the pending
object is aliased into its store, so its data is updated wherever its
handle occurs. -/
def set_data_everywhere (d : MtpDevice) (handle : Nat) (bytes : List Nat) :
    MtpDevice :=
  { d with stores := d.stores.map (fun s =>
      { s with objects := s.objects.map (fun o =>
          if o.uid == handle then set_data_obj o bytes else o) }) }

/-- `SendObject` handler body: fail NO_VALID_OBJECT_INFO when no pending
object exists; else commit the data phase into the pending object and
clear the pending reference.  The wrapper guarantees the data phase is
present; the model reads an absent one as empty on the unreachable path. -/
def SendObject_h : RawHandler := fun d _ ir =>
  match d.last_obj with
  | none => hrErr d RCode.NO_VALID_OBJECT_INFO
  | some h =>
    hrOk { set_data_everywhere d h ((ir.map IrData.data).getD []) with
      last_obj := none }

/-- `FormatStore` handler body: resolve the storage id (INVALID_STORAGE_ID
when unknown), then unconditionally fail PARAMETER_NOT_SUPPORTED. -/
def FormatStore_h : RawHandler := fun d cmd _ =>
  match d.get_storage (cmd.get_param 0) with
  | .error e => hrErr d e
  | .ok _ => hrErr d RCode.PARAMETER_NOT_SUPPORTED

/-- `ResetDevice` handler body: clear the session id. -/
def ResetDevice_h : RawHandler := fun d _ _ =>
  hrOk { d with session_id := none }

/-- `SelfTest` handler body: `run_self_test` is a no-op. -/
def SelfTest_h : RawHandler := fun d _ _ =>
  hrOk d

/-- `SetObjectProtection` handler body: resolve the object and set its
protection status (parameter 1); the object is aliased into its store, so
the status is updated wherever its handle occurs. -/
def SetObjectProtection_h : RawHandler := fun d cmd _ =>
  match d.get_object (cmd.get_param 0) with
  | .error e => hrErr d e
  | .ok o =>
    hrOk { d with stores := d.stores.map (fun s =>
      { s with objects := s.objects.map (fun x =>
          if x.uid == o.uid then { x with protection := cmd.get_param 1 }
          else x) }) }

/-- `PowerDown` handler body: clear the session id. -/
def PowerDown_h : RawHandler := fun d _ _ =>
  hrOk { d with session_id := none }

/-- `GetDevicePropDesc` handler body: the resolved property's descriptor. -/
def GetDevicePropDesc_h : RawHandler := fun d cmd _ =>
  match d.get_property (cmd.get_param 0) with
  | .error e => hrErr d e
  | .ok c => hrData d (Payload.propDesc c)

/-- `GetDevicePropValue` handler body: the resolved property's value. -/
def GetDevicePropValue_h : RawHandler := fun d cmd _ =>
  match d.get_property (cmd.get_param 0) with
  | .error e => hrErr d e
  | .ok c => hrData d (Payload.propValue c)

/-- The session/data-phase checks and the protocol-failure catch of the
`operation` decorator's wrapper, shared by both `num_params` branches:
a missing session for a session-required operation fails SESSION_NOT_OPEN,
a missing data phase for a data-required operation fails INVALID_DATASET;
a protocol condition raised by the underlying handler is caught, leaving
its response code in the result and no payload (`res = None`). -/
def wrapper_rest (session_required ir_data_required : Bool)
    (func : RawHandler) : RawHandler := fun d cmd ir =>
  if session_required = true ∧ d.session_id = none then
    hrErr d RCode.SESSION_NOT_OPEN
  else if ir_data_required = true ∧ ir = none then
    hrErr d RCode.INVALID_DATASET
  else
    let r := func d cmd ir
    if r.err.isSome then { r with payload := none } else r

/-- The `operation` decorator's wrapper: when an expected parameter count
is declared, a container kind other than Command fails INVALID_CODE_FORMAT
and fewer parameters than declared fail PARAMETER_NOT_SUPPORTED; then the
session, data-phase and catch logic of `wrapper_rest` applies. -/
def operation_wrapper (num_params : Option Nat)
    (session_required ir_data_required : Bool) (func : RawHandler) :
    RawHandler := fun d cmd ir =>
  match num_params with
  | some n =>
    if cmd.ctype ≠ ContainerType.Command then
      hrErr d RCode.INVALID_CODE_FORMAT
    else if cmd.num_params < n then
      hrErr d RCode.PARAMETER_NOT_SUPPORTED
    else wrapper_rest session_required ir_data_required func d cmd ir
  | none => wrapper_rest session_required ir_data_required func d cmd ir

/-- A registry entry: the wrapped handler and whether the operation
declares a required data phase. -/
structure Operation where
  handler : RawHandler
  ir_data : Bool

def GetDeviceInfo_op : Operation :=
  ⟨operation_wrapper (some 0) false false GetDeviceInfo_h, false⟩

def OpenSession_op : Operation :=
  ⟨operation_wrapper (some 1) false false OpenSession_h, false⟩

def CloseSession_op : Operation :=
  ⟨operation_wrapper (some 0) true false CloseSession_h, false⟩

def GetStorageIDs_op : Operation :=
  ⟨operation_wrapper (some 0) true false GetStorageIDs_h, false⟩

def GetStorageInfo_op : Operation :=
  ⟨operation_wrapper (some 1) true false GetStorageInfo_h, false⟩

def GetNumObjects_op : Operation :=
  ⟨operation_wrapper (some 1) true false GetNumObjects_h, false⟩

def GetObjectHandles_op : Operation :=
  ⟨operation_wrapper (some 1) true false GetObjectHandles_h, false⟩

def GetObjectInfo_op : Operation :=
  ⟨operation_wrapper (some 1) true false GetObjectInfo_h, false⟩

def GetObject_op : Operation :=
  ⟨operation_wrapper (some 1) true false GetObject_h, false⟩

def GetThumb_op : Operation :=
  ⟨operation_wrapper (some 1) true false GetThumb_h, false⟩

/-- The source declares `num_params=1` for DeleteObject. -/
def DeleteObject_op : Operation :=
  ⟨operation_wrapper (some 1) true false DeleteObject_h, false⟩

def SendObjectInfo_op : Operation :=
  ⟨operation_wrapper (some 1) true true SendObjectInfo_h, true⟩

def SendObject_op : Operation :=
  ⟨operation_wrapper (some 0) true true SendObject_h, true⟩

def FormatStore_op : Operation :=
  ⟨operation_wrapper (some 1) true false FormatStore_h, false⟩

def ResetDevice_op : Operation :=
  ⟨operation_wrapper (some 0) true false ResetDevice_h, false⟩

def SelfTest_op : Operation :=
  ⟨operation_wrapper (some 0) true false SelfTest_h, false⟩

def SetObjectProtection_op : Operation :=
  ⟨operation_wrapper (some 2) true false SetObjectProtection_h, false⟩

/-- The source's PowerDown decorator passes no `num_params`, so the
parameter/container checks are skipped for it. -/
def PowerDown_op : Operation :=
  ⟨operation_wrapper none true false PowerDown_h, false⟩

def GetDevicePropDesc_op : Operation :=
  ⟨operation_wrapper (some 1) true false GetDevicePropDesc_h, false⟩

def GetDevicePropValue_op : Operation :=
  ⟨operation_wrapper (some 1) true false GetDevicePropValue_h, false⟩

/-- The operation registry as the decorators populate it, in source order.
`InitiateCapture` (0x100E) is not registered (its decorator is commented
out in the source). -/
def operations : List (Nat × Operation) := [
  (OperationDataCodes.GetDeviceInfo, GetDeviceInfo_op),
  (OperationDataCodes.OpenSession, OpenSession_op),
  (OperationDataCodes.CloseSession, CloseSession_op),
  (OperationDataCodes.GetStorageIDs, GetStorageIDs_op),
  (OperationDataCodes.GetStorageInfo, GetStorageInfo_op),
  (OperationDataCodes.GetNumObjects, GetNumObjects_op),
  (OperationDataCodes.GetObjectHandles, GetObjectHandles_op),
  (OperationDataCodes.GetObjectInfo, GetObjectInfo_op),
  (OperationDataCodes.GetObject, GetObject_op),
  (OperationDataCodes.GetThumb, GetThumb_op),
  (OperationDataCodes.DeleteObject, DeleteObject_op),
  (OperationDataCodes.SendObjectInfo, SendObjectInfo_op),
  (OperationDataCodes.SendObject, SendObject_op),
  (OperationDataCodes.FormatStore, FormatStore_op),
  (OperationDataCodes.ResetDevice, ResetDevice_op),
  (OperationDataCodes.SelfTest, SelfTest_op),
  (OperationDataCodes.SetObjectProtection, SetObjectProtection_op),
  (OperationDataCodes.PowerDown, PowerDown_op),
  (OperationDataCodes.GetDevicePropDesc, GetDevicePropDesc_op),
  (OperationDataCodes.GetDevicePropValue, GetDevicePropValue_op)]

/-- `ccode in operations` / `self.operations[ccode]`: registry lookup. -/
def lookup_op (code : Nat) : Option Operation :=
  (operations.find? (fun p => p.1 == code)).map Prod.snd

/-- Discarding the pending object in `handle_transaction`:
`self.last_obj.delete(0xffffffff)` (forced deletion with the wildcard
format) followed by `self.last_obj = None`. -/
def drop_pending (d : MtpDevice) : MtpDevice :=
  match d.last_obj with
  | none => d
  | some h => { force_delete d h with last_obj := none }

/-- `MtpDevice.handle_transaction(command, response, ir_data)`: an
unregistered operation code does nothing and returns `None`; otherwise,
when a pending object exists and the code is not SendObject, the pending
object is force-deleted and cleared, and then the registered wrapped
handler runs; its raised code (if any) is written into the response's code
field and its output parameters are appended. -/
def handle_transaction (d : MtpDevice) (cmd : Command) (resp : Response)
    (ir : Option IrData) : MtpDevice × Response × Option Payload :=
  match lookup_op cmd.code with
  | none => (d, resp, none)
  | some op =>
    let d1 := if d.last_obj.isSome &&
        (cmd.code != OperationDataCodes.SendObject) then
      drop_pending d else d
    let r := op.handler d1 cmd ir
    (r.dev,
     { code := r.err.getD resp.code, params := resp.params ++ r.out_params },
     r.payload)

/-! Concrete fixtures used by witnesses and counterexamples. -/

/-- A fresh response with the default success code and no parameters. -/
def resp0 : Response := ⟨RCode.OK, []⟩

/-- A device with no stores, no session, no pending object. -/
def dev0 : MtpDevice := ⟨[], none, none, [], 0⟩

/-- A device with an open session (id 1) and no pending object. -/
def dev_open : MtpDevice := ⟨[], some 1, none, [], 0⟩

/-- A device with an open session and a pending object with handle 7. -/
def dev_pending : MtpDevice := ⟨[], some 1, some 7, [], 8⟩

/-- An object whose delete always succeeds. -/
def obj_ok (u : Nat) : MtpObj :=
  ⟨u, 0xffffffff, [], 0, fun _ => none, fun _ => true⟩

/-- An object whose delete always fails with the given code (for
non-wildcard formats). -/
def obj_fail (u : Nat) (c : RCode) : MtpObj :=
  ⟨u, 0xffffffff, [], 0, fun _ => some c, fun _ => true⟩

/-- A writable store with the given id and objects. -/
def store_of (u : Nat) (os : List MtpObj) : MtpStorage := ⟨u, true, os⟩

/-- A read-only store with the given id and objects. -/
def ro_store_of (u : Nat) (os : List MtpObj) : MtpStorage := ⟨u, false, os⟩

/-- Open-session device whose single store holds one deletable object. -/
def devA : MtpDevice := ⟨[store_of 3 [obj_ok 1]], some 1, none, [], 10⟩

/-- Open-session device whose single store holds one object failing
deletion with a non-PARTIAL_DELETION code. -/
def devB : MtpDevice :=
  ⟨[store_of 3 [obj_fail 1 RCode.OBJECT_WRITE_PROTECTED]], some 1, none, [], 10⟩

/-- Open-session device whose single store holds one object failing
deletion with PARTIAL_DELETION (counted as both deleted and undeleted). -/
def devC : MtpDevice :=
  ⟨[store_of 3 [obj_fail 1 RCode.PARTIAL_DELETION]], some 1, none, [], 10⟩

/-- Open-session device with one empty writable store (id 3). -/
def devW : MtpDevice := ⟨[store_of 3 []], some 1, none, [], 10⟩

/-- Open-session device with one empty read-only store (id 3). -/
def devR : MtpDevice := ⟨[ro_store_of 3 []], some 1, none, [], 10⟩

/-- Open-session device whose store (id 3) holds the object with handle 7,
recorded as the pending object. -/
def devP : MtpDevice := ⟨[store_of 3 [obj_ok 7]], some 1, some 7, [], 8⟩

/-- A GetDeviceInfo command with no parameters. -/
def infoCmd : Command :=
  ⟨ContainerType.Command, OperationDataCodes.GetDeviceInfo, []⟩

/-- An OpenSession command requesting the given session id. -/
def openCmd (n : Nat) : Command :=
  ⟨ContainerType.Command, OperationDataCodes.OpenSession, [n]⟩

/-- A DeleteObject command with the wildcard handle and a format filter. -/
def deleteAllCmd (fmt : Nat) : Command :=
  ⟨ContainerType.Command, OperationDataCodes.DeleteObject, [0xffffffff, fmt]⟩

/-- A DeleteObject command carrying a single parameter. -/
def deleteCmd1 : Command :=
  ⟨ContainerType.Command, OperationDataCodes.DeleteObject, [0xffffffff]⟩

/-- A SendObjectInfo command naming a store and a parent handle. -/
def sendObjInfoCmd (sid ph : Nat) : Command :=
  ⟨ContainerType.Command, OperationDataCodes.SendObjectInfo, [sid, ph]⟩

/-- A SendObject command (no parameters). -/
def sendObjCmd : Command :=
  ⟨ContainerType.Command, OperationDataCodes.SendObject, []⟩

/-- A FormatStore command naming a store. -/
def formatCmd (sid : Nat) : Command :=
  ⟨ContainerType.Command, OperationDataCodes.FormatStore, [sid]⟩

/-- A PowerDown command of the given container kind. -/
def powerDownCmd (ct : ContainerType) : Command :=
  ⟨ct, OperationDataCodes.PowerDown, []⟩

/-- An InitiateCapture command: its operation code is never registered
(the decorator is commented out in the source). -/
def captureCmd : Command :=
  ⟨ContainerType.Command, OperationDataCodes.InitiateCapture, []⟩

/-- A Data-kind container with no parameters (wrapper fixtures). -/
def wcmd_data : Command := ⟨ContainerType.Data, 0, []⟩

/-- A Command-kind container with no parameters (wrapper fixtures). -/
def wcmd0 : Command := ⟨ContainerType.Command, 0, []⟩

/-! Helper lemmas shared across claims. -/

theorem handle_transaction_some (d : MtpDevice) (cmd : Command)
    (resp : Response) (ir : Option IrData) (op : Operation)
    (hop : lookup_op cmd.code = some op) :
    handle_transaction d cmd resp ir =
      (let d1 := if d.last_obj.isSome &&
          (cmd.code != OperationDataCodes.SendObject) then
        drop_pending d else d
       let r := op.handler d1 cmd ir
       (r.dev,
        { code := r.err.getD resp.code,
          params := resp.params ++ r.out_params },
        r.payload)) := by
  unfold handle_transaction
  rw [hop]

theorem handle_transaction_nopending (d : MtpDevice) (cmd : Command)
    (resp : Response) (ir : Option IrData) (op : Operation)
    (hop : lookup_op cmd.code = some op) (hnp : d.last_obj = none) :
    handle_transaction d cmd resp ir =
      (let r := op.handler d cmd ir
       (r.dev,
        { code := r.err.getD resp.code,
          params := resp.params ++ r.out_params },
        r.payload)) := by
  rw [handle_transaction_some d cmd resp ir op hop]
  simp [hnp]

/-- Claim C1: for every device with a pending object and every dispatched
command whose code is registered and is not SendObject,
`handle_transaction` first force-deletes the pending object with the
wildcard format (removing it from every store) and clears the
pending-object reference, and only then runs the operation's wrapped
handler; the pending reference being a single optional slot, at most one
pending object ever exists. -/
theorem c1_pending_discarded_before_dispatch (d : MtpDevice)
    (cmd : Command) (resp : Response) (ir : Option IrData) (op : Operation)
    (h : Nat) (hpend : d.last_obj = some h)
    (hop : lookup_op cmd.code = some op)
    (hns : cmd.code ≠ OperationDataCodes.SendObject) :
    drop_pending d = { force_delete d h with last_obj := none } ∧
    (drop_pending d).last_obj = none ∧
    handle_transaction d cmd resp ir =
      (let r := op.handler (drop_pending d) cmd ir
       (r.dev,
        { code := r.err.getD resp.code,
          params := resp.params ++ r.out_params },
        r.payload)) := by
  refine ⟨by unfold drop_pending; rw [hpend], ?_, ?_⟩
  · unfold drop_pending
    rw [hpend]
  · rw [handle_transaction_some d cmd resp ir op hop]
    simp [hpend, hns]

theorem c1_pending_discarded_before_dispatch_witness :
    dev_pending.last_obj = some 7 ∧
    lookup_op infoCmd.code = some GetDeviceInfo_op ∧
    infoCmd.code ≠ OperationDataCodes.SendObject ∧
    (drop_pending dev_pending =
        { force_delete dev_pending 7 with last_obj := none } ∧
      (drop_pending dev_pending).last_obj = none ∧
      handle_transaction dev_pending infoCmd resp0 none =
        (let r := GetDeviceInfo_op.handler (drop_pending dev_pending)
          infoCmd none
         (r.dev,
          { code := r.err.getD resp0.code,
            params := resp0.params ++ r.out_params },
          r.payload))) :=
  ⟨rfl, rfl, by decide,
    c1_pending_discarded_before_dispatch dev_pending infoCmd resp0 none
      GetDeviceInfo_op 7 rfl rfl (by decide)⟩

/-- Claim C10: a command whose operation code is not in the registry makes
`handle_transaction` return `None` and leaves the device (session id,
stores, properties, pending object) and the response untouched. -/
theorem c10_unregistered_noop (d : MtpDevice) (cmd : Command)
    (resp : Response) (ir : Option IrData)
    (h : lookup_op cmd.code = none) :
    handle_transaction d cmd resp ir = (d, resp, none) := by
  unfold handle_transaction
  rw [h]

theorem c10_unregistered_noop_witness :
    lookup_op captureCmd.code = none ∧
    handle_transaction dev_pending captureCmd resp0 none =
      (dev_pending, resp0, none) :=
  ⟨rfl, c10_unregistered_noop dev_pending captureCmd resp0 none rfl⟩

theorem drop_pending_session (d : MtpDevice) :
    (drop_pending d).session_id = d.session_id := by
  unfold drop_pending
  cases d.last_obj <;> rfl

/-- Claim C9 counterexample: the source's PowerDown decorator declares no
parameter count, so the container-kind check is skipped: a dispatched
PowerDown command whose container kind is Data (not Command) does not
fail INVALID_CODE_FORMAT — the handler runs and clears the session id. -/
theorem c9_counterexample :
    (handle_transaction dev_open (powerDownCmd ContainerType.Data) resp0
        none).2.1.code = RCode.OK ∧
    (handle_transaction dev_open (powerDownCmd ContainerType.Data) resp0
        none).2.1.code ≠ RCode.INVALID_CODE_FORMAT ∧
    (handle_transaction dev_open (powerDownCmd ContainerType.Data) resp0
        none).1.session_id = none :=
  ⟨rfl, by decide, rfl⟩

/-- Claim C9 (amended): PowerDown is registered without an expected
parameter count, so the container-kind and parameter-count checks are
skipped entirely: a dispatched PowerDown command of ANY container kind
with an open session runs the handler, which clears the session id, and
the response code is left untouched (never INVALID_CODE_FORMAT). -/
theorem c9_powerdown_no_format_check (d : MtpDevice) (ct : ContainerType)
    (ps : List Nat) (resp : Response) (ir : Option IrData) (s : Nat)
    (hs : d.session_id = some s) (hp : d.last_obj = none) :
    handle_transaction d ⟨ct, OperationDataCodes.PowerDown, ps⟩ resp ir =
      ({ d with session_id := none }, resp, none) := by
  obtain ⟨rc, rps⟩ := resp
  rw [handle_transaction_nopending d ⟨ct, OperationDataCodes.PowerDown, ps⟩
    ⟨rc, rps⟩ ir PowerDown_op rfl hp]
  simp [PowerDown_op, operation_wrapper, wrapper_rest, PowerDown_h, hrOk,
    hrErr, hs]

theorem c9_powerdown_no_format_check_witness :
    dev_open.session_id = some 1 ∧ dev_open.last_obj = none ∧
    handle_transaction dev_open
        ⟨ContainerType.Event, OperationDataCodes.PowerDown, []⟩ resp0 none =
      ({ dev_open with session_id := none }, resp0, none) :=
  ⟨rfl, rfl,
    c9_powerdown_no_format_check dev_open ContainerType.Event [] resp0
      none 1 rfl rfl⟩

/-- The DeleteObject handler body never raises PARAMETER_NOT_SUPPORTED:
its failure codes are only those of `delete_all_objects`
(OBJECT_WRITE_PROTECTED, PARTIAL_DELETION) and of the object lookup
(INVALID_OBJECT_HANDLE). -/
theorem DeleteObject_h_err_ne (d : MtpDevice) (cmd : Command)
    (ir : Option IrData) :
    (DeleteObject_h d cmd ir).err ≠ some RCode.PARAMETER_NOT_SUPPORTED := by
  by_cases hh : cmd.get_param 0 = 0xffffffff
  · simp only [DeleteObject_h, MtpDevice.delete_all_objects, hh, if_true]
    split
    · split <;> simp
    · simp
  · simp only [DeleteObject_h, hh, if_false]
    unfold MtpDevice.get_object
    rcases hfind : d.stores.findSome?
        (fun s => s.get_object (cmd.get_param 0)) with _ | o <;>
      simp [hfind, hrErr, hrOk]

/-- Claim C7 counterexample: DeleteObject is registered with `num_params=1`
(not 2): a Command-kind DeleteObject carrying exactly one parameter passes
the parameter-count check and the handler runs (here on an empty device,
completing with success rather than PARAMETER_NOT_SUPPORTED). -/
theorem c7_counterexample :
    (handle_transaction dev_open deleteCmd1 resp0 none).2.1.code =
        RCode.OK ∧
    (handle_transaction dev_open deleteCmd1 resp0 none).2.1.code ≠
        RCode.PARAMETER_NOT_SUPPORTED :=
  ⟨rfl, by decide⟩

/-- Claim C7 (amended): DeleteObject declares a minimum parameter count of
1, so a dispatched Command-kind DeleteObject with no parameters yields
PARAMETER_NOT_SUPPORTED and the handler does not run (device unchanged, no
payload); one carrying at least one parameter passes the count check and
its response is never PARAMETER_NOT_SUPPORTED. -/
theorem c7_deleteobject_min_params (d : MtpDevice) (resp : Response)
    (ir : Option IrData) (ps : List Nat) (s : Nat)
    (hs : d.session_id = some s) (hp : d.last_obj = none)
    (hc : resp.code = RCode.OK) :
    (handle_transaction d
        ⟨ContainerType.Command, OperationDataCodes.DeleteObject, []⟩ resp
        ir =
      (d, { code := RCode.PARAMETER_NOT_SUPPORTED, params := resp.params },
        none)) ∧
    (ps ≠ [] →
      (handle_transaction d
          ⟨ContainerType.Command, OperationDataCodes.DeleteObject, ps⟩ resp
          ir).2.1.code ≠ RCode.PARAMETER_NOT_SUPPORTED) := by
  constructor
  · rw [handle_transaction_nopending d
      ⟨ContainerType.Command, OperationDataCodes.DeleteObject, []⟩ resp ir
      DeleteObject_op rfl hp]
    simp [DeleteObject_op, operation_wrapper, wrapper_rest, hrErr,
      Command.num_params]
  · intro hps
    rw [handle_transaction_nopending d
      ⟨ContainerType.Command, OperationDataCodes.DeleteObject, ps⟩ resp ir
      DeleteObject_op rfl hp]
    have hlen : ¬ (ps.length < 1) := by
      simpa [Nat.lt_one_iff, List.length_eq_zero] using hps
    have herr := DeleteObject_h_err_ne d
      ⟨ContainerType.Command, OperationDataCodes.DeleteObject, ps⟩ ir
    rcases hcase : (DeleteObject_h d
        ⟨ContainerType.Command, OperationDataCodes.DeleteObject, ps⟩
        ir).err with _ | c
    · simp [DeleteObject_op, operation_wrapper, wrapper_rest,
        Command.num_params, hlen, hs, hcase, hc]
    · rw [hcase] at herr
      simp [DeleteObject_op, operation_wrapper, wrapper_rest,
        Command.num_params, hlen, hs, hcase]
      exact fun hcc => herr (by rw [hcc])

theorem c7_deleteobject_min_params_witness :
    devA.session_id = some 1 ∧ devA.last_obj = none ∧
    resp0.code = RCode.OK ∧ ([5] : List Nat) ≠ [] ∧
    (handle_transaction devA
        ⟨ContainerType.Command, OperationDataCodes.DeleteObject, []⟩ resp0
        none =
      (devA, { code := RCode.PARAMETER_NOT_SUPPORTED, params := [] },
        none)) ∧
    (handle_transaction devA
        ⟨ContainerType.Command, OperationDataCodes.DeleteObject, [5]⟩ resp0
        none).2.1.code ≠ RCode.PARAMETER_NOT_SUPPORTED :=
  ⟨rfl, rfl, rfl, by decide,
    (c7_deleteobject_min_params devA resp0 none [5] 1 rfl rfl rfl).1,
    (c7_deleteobject_min_params devA resp0 none [5] 1 rfl rfl rfl).2
      (by decide)⟩

/-- Claim C3 counterexample: OpenSession records the requested id with a
plain truthiness check, so a first OpenSession with id 0 succeeds, yet a
second OpenSession does not fail SESSION_ALREADY_OPEN — it succeeds and
overwrites the recorded id with 5. -/
theorem c3_counterexample :
    (handle_transaction dev0 (openCmd 0) resp0 none).2.1.code =
        RCode.OK ∧
    (handle_transaction dev0 (openCmd 0) resp0 none).1.session_id =
        some 0 ∧
    (handle_transaction
        (handle_transaction dev0 (openCmd 0) resp0 none).1 (openCmd 5)
        resp0 none).2.1.code = RCode.OK ∧
    (handle_transaction
        (handle_transaction dev0 (openCmd 0) resp0 none).1 (openCmd 5)
        resp0 none).1.session_id = some 5 :=
  ⟨rfl, rfl, rfl, rfl⟩

/-- Claim C3 (amended): while the recorded session id is absent,
OpenSession always succeeds and records the requested id (whatever its
value); and when the recorded session id is NONZERO, a second OpenSession
fails with SESSION_ALREADY_OPEN and leaves the recorded id unchanged.
(The source guards with Python truthiness, so a recorded id of zero does
not block a second OpenSession.) -/
theorem c3_open_session (d : MtpDevice) (n m : Nat) (resp : Response)
    (s : Nat) :
    (d.session_id = none → resp.code = RCode.OK →
      (handle_transaction d (openCmd n) resp none).2.1.code = RCode.OK ∧
      (handle_transaction d (openCmd n) resp none).1.session_id =
        some n) ∧
    (d.session_id = some s → s ≠ 0 →
      (handle_transaction d (openCmd m) resp none).2.1.code =
        RCode.SESSION_ALREADY_OPEN ∧
      (handle_transaction d (openCmd m) resp none).1.session_id =
        some s) := by
  constructor
  · intro hs hc
    rw [handle_transaction_some d (openCmd n) resp none OpenSession_op rfl]
    cases hlo : d.last_obj <;>
      simp [hlo, openCmd, OpenSession_op, OperationDataCodes.OpenSession,
        OperationDataCodes.SendObject, operation_wrapper, wrapper_rest,
        OpenSession_h, session_truthy, hrOk, hrErr, Command.num_params,
        Command.get_param, drop_pending, force_delete, hs, hc]
  · intro hs hnz
    rw [handle_transaction_some d (openCmd m) resp none OpenSession_op rfl]
    cases hlo : d.last_obj <;>
      simp [hlo, openCmd, OpenSession_op, OperationDataCodes.OpenSession,
        OperationDataCodes.SendObject, operation_wrapper, wrapper_rest,
        OpenSession_h, session_truthy, hrOk, hrErr, Command.num_params,
        Command.get_param, drop_pending, force_delete, hs, hnz]

theorem c3_open_session_witness :
    (dev0.session_id = none ∧ resp0.code = RCode.OK ∧
      (handle_transaction dev0 (openCmd 4) resp0 none).2.1.code =
          RCode.OK ∧
      (handle_transaction dev0 (openCmd 4) resp0 none).1.session_id =
          some 4) ∧
    (dev_open.session_id = some 1 ∧ (1 : Nat) ≠ 0 ∧
      (handle_transaction dev_open (openCmd 9) resp0 none).2.1.code =
          RCode.SESSION_ALREADY_OPEN ∧
      (handle_transaction dev_open (openCmd 9) resp0 none).1.session_id =
          some 1) :=
  ⟨⟨rfl, rfl, (c3_open_session dev0 4 0 resp0 0).1 rfl rfl⟩,
    ⟨rfl, by decide, (c3_open_session dev_open 0 9 resp0 1).2 rfl
      (by decide)⟩⟩

/-- Claim C8: FormatStore with an open session first checks that the
storage id resolves (else INVALID_STORAGE_ID) and then unconditionally
fails PARAMETER_NOT_SUPPORTED; in both cases the device — in particular
every store's contents — is unchanged and no payload is produced. -/
theorem c8_format_store (d : MtpDevice) (sid : Nat) (resp : Response)
    (ir : Option IrData) (s : Nat)
    (hs : d.session_id = some s) (hp : d.last_obj = none) :
    (d.stores.find? (fun st => st.uid == sid) = none →
      handle_transaction d (formatCmd sid) resp ir =
        (d, { code := RCode.INVALID_STORAGE_ID, params := resp.params },
          none)) ∧
    (∀ st, d.stores.find? (fun st => st.uid == sid) = some st →
      handle_transaction d (formatCmd sid) resp ir =
        (d, { code := RCode.PARAMETER_NOT_SUPPORTED,
              params := resp.params }, none)) := by
  constructor
  · intro hfind
    rw [handle_transaction_nopending d (formatCmd sid) resp ir
      FormatStore_op rfl hp]
    simp [formatCmd, FormatStore_op, operation_wrapper, wrapper_rest,
      FormatStore_h, MtpDevice.get_storage, hfind, hrErr,
      Command.num_params, Command.get_param, hs]
  · intro st hfind
    rw [handle_transaction_nopending d (formatCmd sid) resp ir
      FormatStore_op rfl hp]
    simp [formatCmd, FormatStore_op, operation_wrapper, wrapper_rest,
      FormatStore_h, MtpDevice.get_storage, hfind, hrErr,
      Command.num_params, Command.get_param, hs]

/-- When the parameter checks pass (no declared count, or a Command-kind
container carrying at least the declared count), the wrapper reduces to
its session/data/catch stage. -/
theorem wrapper_checks_pass (np : Option Nat) (sreq dreq : Bool)
    (func : RawHandler) (d : MtpDevice) (cmd : Command) (ir : Option IrData)
    (hpass : np = none ∨ (cmd.ctype = ContainerType.Command ∧
      ∀ n, np = some n → n ≤ cmd.num_params)) :
    operation_wrapper np sreq dreq func d cmd ir =
      wrapper_rest sreq dreq func d cmd ir := by
  rcases np with _ | n
  · rfl
  · rcases hpass with h | ⟨hct, hle⟩
    · cases h
    · simp [operation_wrapper, hct, Nat.not_lt.mpr (hle n rfl)]

/-- Claim C4: the wrapper applies its checks in order — for a declared
parameter count, a non-Command container kind fails INVALID_CODE_FORMAT
and too few parameters fail PARAMETER_NOT_SUPPORTED; then a missing
session for a session-required operation fails SESSION_NOT_OPEN; then a
missing data phase for a data-required operation fails INVALID_DATASET;
the underlying handler runs only when all checks pass, and a protocol
failure raised by the checks or the handler is caught at the wrapper (its
code is the result's code, the payload is dropped) rather than
propagating. -/
theorem c4_wrapper_pipeline (np : Option Nat) (sreq dreq : Bool)
    (func : RawHandler) (d : MtpDevice) (cmd : Command)
    (ir : Option IrData) :
    (∀ n, np = some n → cmd.ctype ≠ ContainerType.Command →
      operation_wrapper np sreq dreq func d cmd ir =
        hrErr d RCode.INVALID_CODE_FORMAT) ∧
    (∀ n, np = some n → cmd.ctype = ContainerType.Command →
      cmd.num_params < n →
      operation_wrapper np sreq dreq func d cmd ir =
        hrErr d RCode.PARAMETER_NOT_SUPPORTED) ∧
    ((np = none ∨ (cmd.ctype = ContainerType.Command ∧
        ∀ n, np = some n → n ≤ cmd.num_params)) →
      sreq = true → d.session_id = none →
      operation_wrapper np sreq dreq func d cmd ir =
        hrErr d RCode.SESSION_NOT_OPEN) ∧
    ((np = none ∨ (cmd.ctype = ContainerType.Command ∧
        ∀ n, np = some n → n ≤ cmd.num_params)) →
      (sreq = true → d.session_id ≠ none) →
      dreq = true → ir = none →
      operation_wrapper np sreq dreq func d cmd ir =
        hrErr d RCode.INVALID_DATASET) ∧
    ((np = none ∨ (cmd.ctype = ContainerType.Command ∧
        ∀ n, np = some n → n ≤ cmd.num_params)) →
      (sreq = true → d.session_id ≠ none) →
      (dreq = true → ir ≠ none) →
      (func d cmd ir).err = none →
      operation_wrapper np sreq dreq func d cmd ir = func d cmd ir) ∧
    (∀ c, (np = none ∨ (cmd.ctype = ContainerType.Command ∧
        ∀ n, np = some n → n ≤ cmd.num_params)) →
      (sreq = true → d.session_id ≠ none) →
      (dreq = true → ir ≠ none) →
      (func d cmd ir).err = some c →
      (operation_wrapper np sreq dreq func d cmd ir).err = some c ∧
      (operation_wrapper np sreq dreq func d cmd ir).payload = none ∧
      (operation_wrapper np sreq dreq func d cmd ir).dev =
        (func d cmd ir).dev ∧
      (operation_wrapper np sreq dreq func d cmd ir).out_params =
        (func d cmd ir).out_params) := by
  refine ⟨?_, ?_, ?_, ?_, ?_, ?_⟩
  · intro n hnp hct
    subst hnp
    simp [operation_wrapper, hct]
  · intro n hnp hct hlt
    subst hnp
    simp [operation_wrapper, hct, hlt]
  · intro hpass hsreq hsess
    rw [wrapper_checks_pass np sreq dreq func d cmd ir hpass]
    unfold wrapper_rest
    rw [if_pos ⟨hsreq, hsess⟩]
  · intro hpass hsess hdreq hir
    rw [wrapper_checks_pass np sreq dreq func d cmd ir hpass]
    unfold wrapper_rest
    rw [if_neg (by rintro ⟨h1, h2⟩; exact hsess h1 h2),
      if_pos ⟨hdreq, hir⟩]
  · intro hpass hsess hir herr
    rw [wrapper_checks_pass np sreq dreq func d cmd ir hpass]
    unfold wrapper_rest
    rw [if_neg (by rintro ⟨h1, h2⟩; exact hsess h1 h2),
      if_neg (by rintro ⟨h1, h2⟩; exact hir h1 h2)]
    simp [herr]
  · intro c hpass hsess hir herr
    rw [wrapper_checks_pass np sreq dreq func d cmd ir hpass]
    unfold wrapper_rest
    rw [if_neg (by rintro ⟨h1, h2⟩; exact hsess h1 h2),
      if_neg (by rintro ⟨h1, h2⟩; exact hir h1 h2)]
    simp [herr]

theorem c4_wrapper_pipeline_witness :
    (operation_wrapper (some 0) true false CloseSession_h dev0 wcmd_data
        none = hrErr dev0 RCode.INVALID_CODE_FORMAT) ∧
    (operation_wrapper (some 2) true false SetObjectProtection_h dev0
        wcmd0 none = hrErr dev0 RCode.PARAMETER_NOT_SUPPORTED) ∧
    (operation_wrapper none true false CloseSession_h dev0 wcmd0 none =
        hrErr dev0 RCode.SESSION_NOT_OPEN) ∧
    (operation_wrapper none true true SendObject_h dev_open wcmd0 none =
        hrErr dev_open RCode.INVALID_DATASET) ∧
    (operation_wrapper none true false CloseSession_h dev_open wcmd0 none =
        CloseSession_h dev_open wcmd0 none) ∧
    ((operation_wrapper none true false FormatStore_h dev_open wcmd0
        none).err = some RCode.INVALID_STORAGE_ID ∧
      (operation_wrapper none true false FormatStore_h dev_open wcmd0
        none).payload = none ∧
      (operation_wrapper none true false FormatStore_h dev_open wcmd0
        none).dev = (FormatStore_h dev_open wcmd0 none).dev ∧
      (operation_wrapper none true false FormatStore_h dev_open wcmd0
        none).out_params = (FormatStore_h dev_open wcmd0 none).out_params) :=
  ⟨(c4_wrapper_pipeline (some 0) true false CloseSession_h dev0 wcmd_data
      none).1 0 rfl (by decide),
    (c4_wrapper_pipeline (some 2) true false SetObjectProtection_h dev0
      wcmd0 none).2.1 2 rfl rfl (by decide),
    (c4_wrapper_pipeline none true false CloseSession_h dev0 wcmd0
      none).2.2.1 (Or.inl rfl) rfl rfl,
    (c4_wrapper_pipeline none true true SendObject_h dev_open wcmd0
      none).2.2.2.1 (Or.inl rfl) (fun _ => by decide) rfl rfl,
    (c4_wrapper_pipeline none true false CloseSession_h dev_open wcmd0
      none).2.2.2.2.1 (Or.inl rfl) (fun _ => by decide)
      (fun h => by cases h) rfl,
    (c4_wrapper_pipeline none true false FormatStore_h dev_open wcmd0
      none).2.2.2.2.2 RCode.INVALID_STORAGE_ID (Or.inl rfl)
      (fun _ => by decide) (fun h => by cases h) rfl⟩

/-- The wrapper's protocol-failure catch keeps the handler's raised code. -/
theorem err_of_catch (r : HandlerResult) :
    (if r.err.isSome then { r with payload := none } else r).err = r.err := by
  split <;> rfl

/-- Dispatching DeleteObject with the wildcard handle reduces to the
aggregate outcome of `delete_all_objects` written into the response. -/
theorem c2_reduction (d : MtpDevice) (fmt : Nat) (resp : Response)
    (ir : Option IrData) (s : Nat)
    (hs : d.session_id = some s) (hp : d.last_obj = none) :
    (handle_transaction d (deleteAllCmd fmt) resp ir).2.1.code =
      ((d.delete_all_objects fmt).2).getD resp.code := by
  rw [handle_transaction_nopending d (deleteAllCmd fmt) resp ir
    DeleteObject_op rfl hp]
  simp [deleteAllCmd, DeleteObject_op, operation_wrapper, wrapper_rest,
    DeleteObject_h, Command.num_params, Command.get_param, err_of_catch,
    hs]

/-- Claim C2: DeleteObject with handle 0xFFFFFFFF attempts every object of
every storage unit and aggregates the outcomes: all deletes succeeding
leaves the success code; all deletes failing (none of them with
PARTIAL_DELETION, which would count as a deletion) yields
PARTIAL_DELETION; a mix of deletions (successes or PARTIAL_DELETION
failures) and failures yields OBJECT_WRITE_PROTECTED. -/
theorem c2_delete_all_aggregation (d : MtpDevice) (fmt : Nat)
    (resp : Response) (ir : Option IrData) (s : Nat)
    (hs : d.session_id = some s) (hp : d.last_obj = none)
    (hc : resp.code = RCode.OK) :
    ((∀ o ∈ all_objects d, objDelete o fmt = none) →
      (handle_transaction d (deleteAllCmd fmt) resp ir).2.1.code =
        RCode.OK) ∧
    (0 < (all_objects d).length →
      (∀ o ∈ all_objects d, (objDelete o fmt).isSome = true ∧
          objDelete o fmt ≠ some RCode.PARTIAL_DELETION) →
      (handle_transaction d (deleteAllCmd fmt) resp ir).2.1.code =
        RCode.PARTIAL_DELETION) ∧
    ((∃ o ∈ all_objects d, objDelete o fmt = none ∨
          objDelete o fmt = some RCode.PARTIAL_DELETION) →
      (∃ o ∈ all_objects d, (objDelete o fmt).isSome = true) →
      (handle_transaction d (deleteAllCmd fmt) resp ir).2.1.code =
        RCode.OBJECT_WRITE_PROTECTED) := by
  rw [c2_reduction d fmt resp ir s hs hp]
  refine ⟨fun hall => ?_, fun hne hall => ?_, fun hdel hfail => ?_⟩
  · have hu : (all_objects d).any
        (fun o => (objDelete o fmt).isSome) = false := by
      rw [List.any_eq_false]
      intro o ho
      simp [hall o ho]
    simp [MtpDevice.delete_all_objects, hu, hc]
  · have hu : (all_objects d).any
        (fun o => (objDelete o fmt).isSome) = true := by
      rw [List.any_eq_true]
      obtain ⟨o, ho⟩ := List.exists_mem_of_length_pos hne
      exact ⟨o, ho, (hall o ho).1⟩
    have hd : (all_objects d).any (fun o =>
        (objDelete o fmt).isNone ||
          (objDelete o fmt == some RCode.PARTIAL_DELETION)) = false := by
      rw [List.any_eq_false]
      intro o ho
      have h1 := (hall o ho).1
      have h2 := (hall o ho).2
      simp [Option.isNone_iff_eq_none, beq_iff_eq, h2]
      intro hnone
      rw [hnone] at h1
      simp at h1
    simp [MtpDevice.delete_all_objects, hu, hd]
  · have hu : (all_objects d).any
        (fun o => (objDelete o fmt).isSome) = true := by
      rw [List.any_eq_true]
      obtain ⟨o, ho, hso⟩ := hfail
      exact ⟨o, ho, hso⟩
    have hd : (all_objects d).any (fun o =>
        (objDelete o fmt).isNone ||
          (objDelete o fmt == some RCode.PARTIAL_DELETION)) = true := by
      rw [List.any_eq_true]
      obtain ⟨o, ho, hcase⟩ := hdel
      refine ⟨o, ho, ?_⟩
      rcases hcase with hnone | hpart
      · simp [hnone, Option.isNone_iff_eq_none]
      · simp [hpart, beq_iff_eq]
    simp [MtpDevice.delete_all_objects, hu, hd]

theorem c2_delete_all_aggregation_witness :
    ((∀ o ∈ all_objects devA, objDelete o 5 = none) ∧
      (handle_transaction devA (deleteAllCmd 5) resp0 none).2.1.code =
        RCode.OK) ∧
    (0 < (all_objects devB).length ∧
      (∀ o ∈ all_objects devB, (objDelete o 5).isSome = true ∧
          objDelete o 5 ≠ some RCode.PARTIAL_DELETION) ∧
      (handle_transaction devB (deleteAllCmd 5) resp0 none).2.1.code =
        RCode.PARTIAL_DELETION) ∧
    ((∃ o ∈ all_objects devC, objDelete o 5 = none ∨
          objDelete o 5 = some RCode.PARTIAL_DELETION) ∧
      (∃ o ∈ all_objects devC, (objDelete o 5).isSome = true) ∧
      (handle_transaction devC (deleteAllCmd 5) resp0 none).2.1.code =
        RCode.OBJECT_WRITE_PROTECTED) :=
  ⟨⟨by decide,
      (c2_delete_all_aggregation devA 5 resp0 none 1 rfl rfl rfl).1
        (by decide)⟩,
    ⟨by decide, by decide,
      (c2_delete_all_aggregation devB 5 resp0 none 1 rfl rfl rfl).2.1
        (by decide) (by decide)⟩,
    ⟨by decide, by decide,
      (c2_delete_all_aggregation devC 5 resp0 none 1 rfl rfl rfl).2.2
        (by decide) (by decide)⟩⟩

theorem c8_format_store_witness :
    (devW.session_id = some 1 ∧ devW.last_obj = none ∧
      devW.stores.find? (fun st => st.uid == 9) = none ∧
      handle_transaction devW (formatCmd 9) resp0 none =
        (devW, { code := RCode.INVALID_STORAGE_ID, params := [] },
          none)) ∧
    (devW.stores.find? (fun st => st.uid == 3) = some (store_of 3 []) ∧
      handle_transaction devW (formatCmd 3) resp0 none =
        (devW, { code := RCode.PARAMETER_NOT_SUPPORTED, params := [] },
          none)) :=
  ⟨⟨rfl, rfl, rfl,
      (c8_format_store devW 9 resp0 none 1 rfl rfl).1 rfl⟩,
    ⟨rfl,
      (c8_format_store devW 3 resp0 none 1 rfl rfl).2 (store_of 3 [])
        rfl⟩⟩

/-- Claim C6: SendObject with an open session and a supplied data phase
fails NO_VALID_OBJECT_INFO and changes no state when no pending object
exists; with a pending object it commits the payload into that object
(wherever its handle occurs in the stores) and clears the pending
reference, after which a further SendObject fails NO_VALID_OBJECT_INFO. -/
theorem c6_send_object (d : MtpDevice) (blob : List Nat) (resp : Response)
    (s : Nat) (hs : d.session_id = some s) :
    (d.last_obj = none →
      handle_transaction d sendObjCmd resp (some ⟨blob⟩) =
        (d, { code := RCode.NO_VALID_OBJECT_INFO, params := resp.params },
          none)) ∧
    (∀ h, d.last_obj = some h →
      handle_transaction d sendObjCmd resp (some ⟨blob⟩) =
        ({ set_data_everywhere d h blob with last_obj := none }, resp,
          none)) ∧
    (∀ h, d.last_obj = some h →
      (handle_transaction
          (handle_transaction d sendObjCmd resp (some ⟨blob⟩)).1
          sendObjCmd resp (some ⟨blob⟩)).2.1.code =
        RCode.NO_VALID_OBJECT_INFO) := by
  have key : ∀ (d' : MtpDevice) (s' : Nat), d'.session_id = some s' →
      d'.last_obj = none →
      handle_transaction d' sendObjCmd resp (some ⟨blob⟩) =
        (d', { code := RCode.NO_VALID_OBJECT_INFO, params := resp.params },
          none) := by
    intro d' s' hs' hp'
    rw [handle_transaction_nopending d' sendObjCmd resp (some ⟨blob⟩)
      SendObject_op rfl hp']
    simp [sendObjCmd, SendObject_op, operation_wrapper, wrapper_rest,
      SendObject_h, hp', hrErr, hs', Command.num_params]
  have hmain : ∀ h, d.last_obj = some h →
      handle_transaction d sendObjCmd resp (some ⟨blob⟩) =
        ({ set_data_everywhere d h blob with last_obj := none }, resp,
          none) := by
    intro h hp
    rw [handle_transaction_some d sendObjCmd resp (some ⟨blob⟩)
      SendObject_op rfl]
    simp [sendObjCmd, hp, SendObject_op, operation_wrapper, wrapper_rest,
      SendObject_h, hrOk, hs, Command.num_params]
  refine ⟨fun hp => key d s hs hp, hmain, fun h hp => ?_⟩
  rw [hmain h hp]
  rw [key { set_data_everywhere d h blob with last_obj := none } s hs rfl]

theorem c6_send_object_witness :
    (devA.last_obj = none ∧
      handle_transaction devA sendObjCmd resp0 (some ⟨[9, 9]⟩) =
        (devA, { code := RCode.NO_VALID_OBJECT_INFO, params := [] },
          none)) ∧
    (devP.last_obj = some 7 ∧
      handle_transaction devP sendObjCmd resp0 (some ⟨[9, 9]⟩) =
        ({ set_data_everywhere devP 7 [9, 9] with last_obj := none },
          resp0, none)) ∧
    (handle_transaction
        (handle_transaction devP sendObjCmd resp0 (some ⟨[9, 9]⟩)).1
        sendObjCmd resp0 (some ⟨[9, 9]⟩)).2.1.code =
      RCode.NO_VALID_OBJECT_INFO :=
  ⟨⟨rfl, (c6_send_object devA [9, 9] resp0 1 rfl).1 rfl⟩,
    ⟨rfl, (c6_send_object devP [9, 9] resp0 1 rfl).2.1 7 rfl⟩,
    (c6_send_object devP [9, 9] resp0 1 rfl).2.2 7 rfl⟩

/-- Claim C5: SendObjectInfo with an open session and a supplied data
phase: a zero or unresolvable storage id fails INVALID_STORAGE_ID; a
resolvable store with a resolvable parent but no write capability fails
STORE_READ_ONLY; with a writable store the new data-less object is
attached to the store under the resolved parent, exactly the three output
parameters (store uid, parent uid, new object uid) are appended in that
order, and the new object becomes the pending object.  A parent handle of
zero resolves to the store root, reported as parent uid 0xFFFFFFFF. -/
theorem c5_send_object_info (d : MtpDevice) (sid ph : Nat)
    (blob : List Nat) (resp : Response) (s : Nat)
    (hs : d.session_id = some s) (hp : d.last_obj = none)
    (hc : resp.code = RCode.OK) :
    (sid = 0 →
      handle_transaction d (sendObjInfoCmd sid ph) resp (some ⟨blob⟩) =
        (d, { code := RCode.INVALID_STORAGE_ID, params := resp.params },
          none)) ∧
    (sid ≠ 0 → d.get_storage sid = .error RCode.INVALID_STORAGE_ID →
      handle_transaction d (sendObjInfoCmd sid ph) resp (some ⟨blob⟩) =
        (d, { code := RCode.INVALID_STORAGE_ID, params := resp.params },
          none)) ∧
    (∀ st p_uid, sid ≠ 0 → d.get_storage sid = .ok st →
      resolve_parent st ph = .ok p_uid → st.can_write = false →
      handle_transaction d (sendObjInfoCmd sid ph) resp (some ⟨blob⟩) =
        (d, { code := RCode.STORE_READ_ONLY, params := resp.params },
          none)) ∧
    (∀ st p_uid, sid ≠ 0 → d.get_storage sid = .ok st →
      resolve_parent st ph = .ok p_uid → st.can_write = true →
      handle_transaction d (sendObjInfoCmd sid ph) resp (some ⟨blob⟩) =
        ({ d with
            stores := d.stores.map (fun st2 =>
              if st2.uid == st.uid then
                { st2 with objects :=
                    st2.objects ++ [fresh_obj d.uid_counter p_uid] }
              else st2),
            last_obj := some d.uid_counter,
            uid_counter := d.uid_counter + 1 },
          { code := RCode.OK,
            params := resp.params ++ [st.uid, p_uid, d.uid_counter] },
          none)) ∧
    (∀ st : MtpStorage, resolve_parent st 0 = .ok 0xffffffff) := by
  refine ⟨fun h0 => ?_, fun hnz hstor => ?_, fun st p_uid hnz hstor hpar
    hro => ?_, fun st p_uid hnz hstor hpar hw => ?_, fun st => rfl⟩
  · subst h0
    rw [handle_transaction_nopending d (sendObjInfoCmd 0 ph) resp
      (some ⟨blob⟩) SendObjectInfo_op rfl hp]
    simp [sendObjInfoCmd, SendObjectInfo_op, operation_wrapper,
      wrapper_rest, SendObjectInfo_h, hrErr, hs, Command.num_params,
      Command.get_param]
  · rw [handle_transaction_nopending d (sendObjInfoCmd sid ph) resp
      (some ⟨blob⟩) SendObjectInfo_op rfl hp]
    simp [sendObjInfoCmd, SendObjectInfo_op, operation_wrapper,
      wrapper_rest, SendObjectInfo_h, hrErr, hs, Command.num_params,
      Command.get_param, hnz, hstor]
  · rw [handle_transaction_nopending d (sendObjInfoCmd sid ph) resp
      (some ⟨blob⟩) SendObjectInfo_op rfl hp]
    simp [sendObjInfoCmd, SendObjectInfo_op, operation_wrapper,
      wrapper_rest, SendObjectInfo_h, hrErr, hs, Command.num_params,
      Command.get_param, hnz, hstor, hpar, hro]
  · rw [handle_transaction_nopending d (sendObjInfoCmd sid ph) resp
      (some ⟨blob⟩) SendObjectInfo_op rfl hp]
    simp [sendObjInfoCmd, SendObjectInfo_op, operation_wrapper,
      wrapper_rest, SendObjectInfo_h, hrOk, hs, Command.num_params,
      Command.get_param, hnz, hstor, hpar, hw, hc, fresh_obj]

theorem c5_send_object_info_witness :
    (handle_transaction devW (sendObjInfoCmd 0 0) resp0 (some ⟨[1]⟩) =
        (devW, { code := RCode.INVALID_STORAGE_ID, params := [] },
          none)) ∧
    (devW.get_storage 9 = .error RCode.INVALID_STORAGE_ID ∧
      handle_transaction devW (sendObjInfoCmd 9 0) resp0 (some ⟨[1]⟩) =
        (devW, { code := RCode.INVALID_STORAGE_ID, params := [] },
          none)) ∧
    (devR.get_storage 3 = .ok (ro_store_of 3 []) ∧
      resolve_parent (ro_store_of 3 []) 0 = .ok 0xffffffff ∧
      handle_transaction devR (sendObjInfoCmd 3 0) resp0 (some ⟨[1]⟩) =
        (devR, { code := RCode.STORE_READ_ONLY, params := [] }, none)) ∧
    (devW.get_storage 3 = .ok (store_of 3 []) ∧
      handle_transaction devW (sendObjInfoCmd 3 0) resp0 (some ⟨[1]⟩) =
        ({ devW with
            stores := devW.stores.map (fun st2 =>
              if st2.uid == (store_of 3 []).uid then
                { st2 with objects :=
                    st2.objects ++ [fresh_obj devW.uid_counter 0xffffffff] }
              else st2),
            last_obj := some devW.uid_counter,
            uid_counter := devW.uid_counter + 1 },
          { code := RCode.OK, params := [3, 0xffffffff, 10] }, none)) :=
  ⟨(c5_send_object_info devW 0 0 [1] resp0 1 rfl rfl rfl).1 rfl,
    ⟨rfl, (c5_send_object_info devW 9 0 [1] resp0 1 rfl rfl rfl).2.1
      (by decide) rfl⟩,
    ⟨rfl, rfl, (c5_send_object_info devR 3 0 [1] resp0 1 rfl rfl
      rfl).2.2.1 (ro_store_of 3 []) 0xffffffff (by decide) rfl rfl rfl⟩,
    ⟨rfl, (c5_send_object_info devW 3 0 [1] resp0 1 rfl rfl rfl).2.2.2.1
      (store_of 3 []) 0xffffffff (by decide) rfl rfl rfl⟩⟩

end Mtp
